import Mathlib

/-!
Shallow embedding of `rungittest` (`main.go`, two near-duplicate file
variants) — a bounded-concurrency batch test runner.  Byte sequences are
modelled as `String` / `List Char`; errors carried by Go `error` values are
modelled as `Option String` (`none` = nil, `some e` = an error whose text
is `e`).  File-system and process effects are made explicit: `runTest`
returns, besides the Go `result` record, an `ExecEffect` recording the log
file written (path and content) and whether the test process was spawned.
-/

/-- Go `bytes.Split(b, []byte("\n"))`: split on every line feed, keeping
empty fragments, so a trailing `'\n'` yields a trailing empty element. -/
def splitLF : List Char → List (List Char)
  | [] => [[]]
  | c :: rest =>
    let r := splitLF rest
    if c = '\n' then [] :: r
    else
      match r with
      | [] => [[c]]
      | h :: t => (c :: h) :: t

/-- Summary body (`main.go` lines 75–80 of the first variant): split the
captured stdout on line feed; if at least 3 elements result, reslice to the
last 3 (`lines = lines[len(lines)-3:]`) and take the first of them
(`string(lines[0])`); otherwise the empty string. -/
def summaryBody (stdout : String) : String :=
  let lines := splitLF stdout.toList
  if 3 ≤ lines.length then
    String.mk ((lines.drop (lines.length - 3)).headD [])
  else ""

/-- Environment of one `runTest` call: whether `os.Create` fails, the bytes
the spawned process writes to stdout and stderr, and whether `cmd.Run`
returns an error (non-zero exit, signal, or spawn failure). -/
structure TestEnv where
  createErr : Option String
  stdout    : String
  stderr    : String
  procErr   : Option String
deriving DecidableEq, Repr

/-- Go struct `result` (fields `name`, `summary`, `err`). -/
structure Result where
  name    : String
  summary : String
  err     : Option String
deriving DecidableEq, Repr

/-- Observable file/process effects of one `runTest` call: the log file
written (`none` when `os.Create` failed) and whether `/bin/sh name` was
spawned. -/
structure ExecEffect where
  log     : Option (String × String)
  spawned : Bool
deriving DecidableEq, Repr

/-- Go: `errStr := "success"; if err != nil { errStr = err.Error() }`. -/
def errText : Option String → String
  | none => "success"
  | some e => e

/-- Go `filepath.Join(outdir, name+".log")`. -/
def logPath (outdir name : String) : String := outdir ++ "/" ++ name ++ ".log"

/-- Log content written by the first file variant (`main.go` lines 69–73):
an exit-status header, then the delimited stdout and stderr sections. -/
def logContentA (procErr : Option String) (stdout stderr : String) : String :=
  "*** EXIT: " ++ errText procErr ++ " ***\n\n" ++
  "*** STDOUT: ***\n\n" ++ stdout ++ "\n\n*** STDERR: ***\n\n" ++ stderr

/-- Log content written by the second file variant (lines 215–218): the
delimited stdout and stderr sections only, no exit-status header. -/
def logContentB (stdout stderr : String) : String :=
  "\n\n*** STDOUT: ***\n\n" ++ stdout ++ "\n\n*** STDERR: ***\n\n" ++ stderr

/-- `runTest` of the first file variant (`main.go` lines 49–93).  If
`os.Create` fails it returns `&result{summary: "create error", err: err}`
(note: the `name` field is left at its zero value `""`) without spawning
the process.  Otherwise it runs the process, writes the log (with exit
header), and derives the summary from the captured stdout. -/
def runTest (name outdir : String) (env : TestEnv) : Result × ExecEffect :=
  match env.createErr with
  | some e =>
    ({ name := "", summary := "create error", err := some e },
     { log := none, spawned := false })
  | none =>
    let body := summaryBody env.stdout
    let summary := if env.procErr.isSome then "error: " ++ body else "ok: " ++ body
    ({ name := name, summary := summary, err := env.procErr },
     { log := some (logPath outdir name, logContentA env.procErr env.stdout env.stderr),
       spawned := true })

/-- `runTest` of the second file variant (`main.go` lines 199–238):
identical except that the log has no exit-status header. -/
def runTestB (name outdir : String) (env : TestEnv) : Result × ExecEffect :=
  match env.createErr with
  | some e =>
    ({ name := "", summary := "create error", err := some e },
     { log := none, spawned := false })
  | none =>
    let body := summaryBody env.stdout
    let summary := if env.procErr.isSome then "error: " ++ body else "ok: " ++ body
    ({ name := name, summary := summary, err := env.procErr },
     { log := some (logPath outdir name, logContentB env.stdout env.stderr),
       spawned := true })

/-- Byte-wise lexicographic order on character lists, the order Go
`sort.Strings` sorts by. -/
def leChars : List Char → List Char → Bool
  | [], _ => true
  | _ :: _, [] => false
  | a :: as, b :: bs =>
    if a.toNat = b.toNat then leChars as bs else decide (a.toNat < b.toNat)

/-- Lexicographic order on strings, as used by Go `sort.Strings`. -/
def strLe (a b : String) : Bool := leChars a.toList b.toList

/-- `strLe` as a `Prop`-valued relation, for `List.insertionSort`. -/
def StrLeP (a b : String) : Prop := strLe a b = true

instance : DecidableRel StrLeP := fun a b => decEq (strLe a b) true

instance : IsTrans String StrLeP where
  trans a b c := by
    unfold StrLeP strLe
    generalize a.toList = x
    generalize b.toList = y
    generalize c.toList = z
    induction x generalizing y z with
    | nil => intro _ _; cases z <;> simp [leChars]
    | cons xa xs ih =>
      intro hxy hyz
      cases y with
      | nil => simp [leChars] at hxy
      | cons ya ys =>
        cases z with
        | nil => simp [leChars] at hyz
        | cons za zs =>
          simp only [leChars] at hxy hyz ⊢
          by_cases h1 : xa.toNat = ya.toNat
          · by_cases h2 : ya.toNat = za.toNat
            · rw [if_pos h1] at hxy
              rw [if_pos h2] at hyz
              rw [if_pos (h1.trans h2)]
              exact ih ys zs hxy hyz
            · rw [if_neg h2] at hyz
              simp only [decide_eq_true_eq] at hyz
              rw [if_neg (by omega)]
              simp only [decide_eq_true_eq]
              omega
          · rw [if_neg h1] at hxy
            simp only [decide_eq_true_eq] at hxy
            by_cases h2 : ya.toNat = za.toNat
            · rw [if_neg (by omega)]
              simp only [decide_eq_true_eq]
              omega
            · rw [if_neg h2] at hyz
              simp only [decide_eq_true_eq] at hyz
              rw [if_neg (by omega)]
              simp only [decide_eq_true_eq]
              omega

instance : IsTotal String StrLeP where
  total a b := by
    unfold StrLeP strLe
    generalize a.toList = x
    generalize b.toList = y
    induction x generalizing y with
    | nil => left; simp [leChars]
    | cons xa xs ih =>
      cases y with
      | nil => right; simp [leChars]
      | cons ya ys =>
        simp only [leChars]
        by_cases h : xa.toNat = ya.toNat
        · rw [if_pos h, if_pos h.symm]
          exact ih ys
        · rw [if_neg h, if_neg (Ne.symm h)]
          simp only [decide_eq_true_eq]
          omega

/-- Go `sort.Strings(failed)`: sort lexicographically.  Modelled with
insertion sort; lexicographic order is total and antisymmetric, so the
sorted result is the same list for any sorting algorithm. -/
def sortStrings (l : List String) : List String := List.insertionSort StrLeP l

/-- Go `strings.Join(failed, "\n")` inside the `fmt.Sprintf` that builds
`summary.txt` (lines 146–149): `"# run %s\n# on %s, elapsed %s:\n%s"`,
where `%s` on `os.Args` prints the elements bracketed and space-separated. -/
def formatArgs (args : List String) : String :=
  "[" ++ String.intercalate " " args ++ "]"

/-- Content of `summary.txt` as built by `fmt.Sprintf` at lines 146–149. -/
def summaryContent (argv : List String) (timestamp elapsed : String)
    (failed : List String) : String :=
  "# run " ++ formatArgs argv ++ "\n# on " ++ timestamp ++ ", elapsed " ++
    elapsed ++ ":\n" ++ String.intercalate "\n" failed

/-- Glob expansion loop of `main` (lines 107–114): expand each pattern with
`filepath.Glob`, aborting at the first error, concatenating matches in
order (no deduplication). -/
def expandGlobs (globFn : String → Except String (List String)) :
    List String → Except String (List String)
  | [] => .ok []
  | p :: ps =>
    match globFn p with
    | .error e => .error e
    | .ok es =>
      match expandGlobs globFn ps with
      | .error e => .error e
      | .ok rest => .ok (es ++ rest)

/-- External world of one invocation of `main`: the filesystem/glob
collaborator, whether `os.MkdirAll` fails, the per-submission test
environment (`envOf i` is the environment of the i-th submitted entry, so
a duplicate identifier submitted twice runs twice, independently), whether
the `ioutil.WriteFile` of `summary.txt` fails, and the audit strings used
in the summary header. -/
structure World where
  globFn          : String → Except String (List String)
  mkdirErr        : Option String
  envOf           : Nat → TestEnv
  summaryWriteErr : Option String
  timestamp       : String
  elapsed         : String
  argv            : List String

/-- Dispatch-and-collect loop of `main` (lines 124–131), sequentialised in
submission order: run `runTest` once per submitted entry, `envOf` indexed
by submission position.  Completion order of the real goroutines is
nondeterministic, but every property stated below about this list is
order-insensitive (lengths, per-index correspondence, sorted failures). -/
def runAll (outdir : String) (envOf : Nat → TestEnv) :
    Nat → List String → List (Result × ExecEffect)
  | _, [] => []
  | i, nm :: rest => runTest nm outdir (envOf i) :: runAll outdir envOf (i + 1) rest

/-- Aggregate observable output of a run that reached completion: the
Results collected from the channel, the log files written, the summary
artifact, and the sorted failures list. -/
structure RunOutput where
  results     : List Result
  logs        : List (String × String)
  summaryFile : Option (String × String)
  failed      : List String
deriving DecidableEq, Repr

/-- The `RunOutput` of a completed run of the first variant's `main` over
`entries` (lines 120–153): collect one Result per entry, accumulate the
names of Results with non-nil `err` as failures, sort them, and write
`summary.txt` in the output directory. -/
def runOutputOf (outdir : String) (w : World) (entries : List String) : RunOutput :=
  let runs := runAll outdir w.envOf 0 entries
  let results := runs.map Prod.fst
  let failed := sortStrings ((results.filter fun r => r.err.isSome).map fun r => r.name)
  { results := results
    logs := runs.filterMap fun r => r.2.log
    summaryFile := some (outdir ++ "/summary.txt",
      summaryContent w.argv w.timestamp w.elapsed failed)
    failed := failed }

/-- Process-level outcome of `main`: `fatal msg` is a `log.Fatal*` call
(non-zero exit status), `success ro` is normal termination (exit status 0)
with observable output `ro`. -/
inductive MainOutcome where
  | fatal (msg : String)
  | success (ro : RunOutput)
deriving DecidableEq, Repr

/-- `main` of the first file variant (lines 95–154): flag validation, glob
expansion, output-directory creation, the run itself, and the summary
write, with every `log.Fatal*` path made explicit. -/
def mainModel (jobs : Nat) (outdir : String) (patterns : List String)
    (w : World) : MainOutcome :=
  if outdir = "" then .fatal "must provide --outdir."
  else if patterns = [] then .fatal "usage: provide glob"
  else
    match expandGlobs w.globFn patterns with
    | .error e => .fatal ("glob: " ++ e)
    | .ok entries =>
      match w.mkdirErr with
      | some e => .fatal e
      | none =>
        match w.summaryWriteErr with
        | some e => .fatal e
        | none => .success (runOutputOf outdir w entries)

/-- State of one per-test goroutine (lines 125–130): `pending` before
`throttle <- 1`, `running` between acquire and the send of the Result,
`delivered` after `results <- runTest(...)` but before the deferred
`<-throttle`, `released` after the deferred release ran. -/
inductive UState where
  | pending
  | running
  | delivered
  | released
deriving DecidableEq, Repr

/-- A goroutine holds a worker-budget slot (an element sits in the
`throttle` channel on its behalf) exactly between acquire and release. -/
def holdsSlot : UState → Bool
  | .running => true
  | .delivered => true
  | _ => false

/-- A goroutine has already sent its Result on the `results` channel. -/
def hasSent : UState → Bool
  | .delivered => true
  | .released => true
  | _ => false

/-- Number of worker-budget slots currently held. -/
def slotCount (l : List UState) : Nat := l.countP holdsSlot

/-- Global scheduler state: one `UState` per submitted entry (by
submission index) and the cumulative contents of the `results` channel. -/
structure SchedState where
  units : List UState
  sent  : List Result
deriving DecidableEq, Repr

/-- Interleaving semantics of the goroutine pool (lines 122–131).
`acquire` is `throttle <- 1` on a channel of capacity `jobs`: enabled only
while fewer than `jobs` slots are held.  `send` is
`results <- runTest(nm, *out)` on a channel of capacity `entries.length`:
enabled while the channel is not full; it is enabled for every `TestEnv`,
in particular when `os.Create` fails, because `runTest` returns a Result
on that path too.  `release` is the deferred `<-throttle`, which runs
unconditionally after the send.  The stepping unit is the one at index
`l₁.length`. -/
inductive SchedStep (jobs : Nat) (outdir : String) (entries : List String)
    (envOf : Nat → TestEnv) : SchedState → SchedState → Prop
  | acquire (l₁ l₂ : List UState) (sent : List Result) :
      slotCount (l₁ ++ UState.pending :: l₂) < jobs →
      SchedStep jobs outdir entries envOf
        ⟨l₁ ++ UState.pending :: l₂, sent⟩
        ⟨l₁ ++ UState.running :: l₂, sent⟩
  | send (l₁ l₂ : List UState) (sent : List Result) :
      sent.length < entries.length →
      SchedStep jobs outdir entries envOf
        ⟨l₁ ++ UState.running :: l₂, sent⟩
        ⟨l₁ ++ UState.delivered :: l₂,
          sent ++ [(runTest (entries.getD l₁.length "") outdir (envOf l₁.length)).1]⟩
  | release (l₁ l₂ : List UState) (sent : List Result) :
      SchedStep jobs outdir entries envOf
        ⟨l₁ ++ UState.delivered :: l₂, sent⟩
        ⟨l₁ ++ UState.released :: l₂, sent⟩

/-- Initial scheduler state: every goroutine launched, none yet holding a
slot, the results channel empty. -/
def initState (n : Nat) : SchedState :=
  { units := List.replicate n UState.pending, sent := [] }

/-- States reachable during the run over `entries`. -/
def Reachable (jobs : Nat) (outdir : String) (entries : List String)
    (envOf : Nat → TestEnv) (s : SchedState) : Prop :=
  Relation.ReflTransGen (SchedStep jobs outdir entries envOf)
    (initState entries.length) s

/-- Invariant of the scheduler: the number of goroutines never changes,
at most `jobs` worker-budget slots are held, and the results channel
holds exactly one Result per goroutine that has sent. -/
def SchedInv (jobs n : Nat) (s : SchedState) : Prop :=
  s.units.length = n ∧
  slotCount s.units ≤ jobs ∧
  s.sent.length = s.units.countP hasSent

/-- Concrete environment: log creation succeeds, the process prints
`"a\nb\nc\n"` and exits cleanly. -/
def sampleEnvOk : TestEnv :=
  { createErr := none, stdout := "a\nb\nc\n", stderr := "", procErr := none }

/-- Concrete environment: log creation succeeds, the process prints four
lines and exits with status 1. -/
def sampleEnvFail : TestEnv :=
  { createErr := none, stdout := "x\ny\nz\nw\n", stderr := "oops",
    procErr := some "exit status 1" }

/-- Concrete environment: `os.Create` fails. -/
def sampleEnvCreateFail : TestEnv :=
  { createErr := some "permission denied", stdout := "", stderr := "",
    procErr := none }

/-- Concrete glob collaborator: pattern `"p"` matches `t1` and `t2`,
pattern `"q"` matches `t1` again (so `t1` is submitted twice). -/
def sampleGlobFn : String → Except String (List String) :=
  fun p => if p = "p" then .ok ["t1", "t2"] else if p = "q" then .ok ["t1"] else .ok []

/-- Concrete world: globs `p q` yield submissions `[t1, t2, t1]`, the
first submission passes, the later two fail; no infrastructure errors. -/
def sampleWorld : World :=
  { globFn := sampleGlobFn
    mkdirErr := none
    envOf := fun i => if i = 0 then sampleEnvOk else sampleEnvFail
    summaryWriteErr := none
    timestamp := "2026-10-11T00:00:00Z"
    elapsed := "1s"
    argv := ["rungittest", "--outdir", "o", "p", "q"] }

/-- Concrete world whose glob collaborator matches nothing at all. -/
def emptyGlobWorld : World :=
  { globFn := fun _ => .ok []
    mkdirErr := none
    envOf := fun _ => sampleEnvOk
    summaryWriteErr := none
    timestamp := "T"
    elapsed := "E"
    argv := ["rungittest"] }

/-- Concrete world whose every submission hits a `create error`. -/
def createFailWorld : World :=
  { globFn := sampleGlobFn
    mkdirErr := none
    envOf := fun _ => sampleEnvCreateFail
    summaryWriteErr := none
    timestamp := "T"
    elapsed := "E"
    argv := ["rungittest"] }

/-- Concrete world with two submissions: the first runs normally, the
second hits a log-creation failure. -/
def mixedCreateWorld : World :=
  { globFn := fun _ => .ok ["t1", "t2"]
    mkdirErr := none
    envOf := fun i => if i = 0 then sampleEnvOk else sampleEnvCreateFail
    summaryWriteErr := none
    timestamp := "T"
    elapsed := "E"
    argv := ["rungittest"] }

/-- One small sanity example kept as a theorem: the split of `"a\nb\nc\n"`
has four elements, the trailing one empty (Go `bytes.Split` semantics). -/
theorem splitLF_trailing_newline :
    splitLF "a\nb\nc\n".toList = [['a'], ['b'], ['c'], []] := by decide

/-- Taking the head of `l.drop k` (with default) is indexing `l` at `k`
(with default): Go `lines[len(lines)-3:]` followed by `lines[0]` is
`lines[len(lines)-3]`. -/
theorem drop_headD_getD {α : Type} (l : List α) :
    ∀ (k : Nat) (d : α), (l.drop k).headD d = l.getD k d := by
  induction l with
  | nil => intro k d; simp
  | cons a t ih =>
    intro k d
    cases k with
    | zero => simp
    | succ k => simpa using ih k d

/-- When flag validation, glob expansion, directory creation and the
summary write all succeed, `main` terminates normally with the collected
run output. -/
theorem mainModel_success (jobs : Nat) (outdir : String) (patterns : List String)
    (w : World) (entries : List String) (h1 : outdir ≠ "") (h2 : patterns ≠ [])
    (hg : expandGlobs w.globFn patterns = Except.ok entries)
    (hm : w.mkdirErr = none) (hs : w.summaryWriteErr = none) :
    mainModel jobs outdir patterns w = .success (runOutputOf outdir w entries) := by
  unfold mainModel
  simp [h1, h2, hg, hm, hs]

/-- The first variant's log is exactly the second variant's log preceded
by the exit-status header text. -/
theorem logContentA_eq_header_append (p : Option String) (o e : String) :
    logContentA p o e = "*** EXIT: " ++ errText p ++ " ***" ++ logContentB o e := by
  unfold logContentA logContentB
  simp [String.ext_iff, String.data_append]

/-- C1 (confirmed): on every run in which the log file could be created,
the summary body is derived by splitting the captured stdout bytes on
line feed; if at least 3 elements result, the element at index
`count - 3` (0-based, the 3rd-from-last element of the split) is the
body, otherwise the body is empty; the summary is that body prefixed with
`"ok: "` on a clean exit and `"error: "` otherwise. -/
theorem summary_selects_line_count_minus_three (name outdir : String)
    (env : TestEnv) (hc : env.createErr = none) :
    (runTest name outdir env).1.summary =
      (if env.procErr.isSome then "error: " else "ok: ") ++
        (if 3 ≤ (splitLF env.stdout.toList).length then
          String.mk ((splitLF env.stdout.toList).getD
            ((splitLF env.stdout.toList).length - 3) [])
        else "") := by
  unfold runTest summaryBody
  rw [hc]
  cases h : env.procErr <;> simp [h, drop_headD_getD]

/-- Witness for `summary_selects_line_count_minus_three` at a concrete
four-line stdout. -/
theorem summary_selects_line_count_minus_three_witness :
    sampleEnvFail.createErr = none ∧
    (runTest "t2" "o" sampleEnvFail).1.summary =
      (if sampleEnvFail.procErr.isSome then "error: " else "ok: ") ++
        (if 3 ≤ (splitLF sampleEnvFail.stdout.toList).length then
          String.mk ((splitLF sampleEnvFail.stdout.toList).getD
            ((splitLF sampleEnvFail.stdout.toList).length - 3) [])
        else "") :=
  ⟨rfl, summary_selects_line_count_minus_three "t2" "o" sampleEnvFail rfl⟩

/-- C4 (counterexample): a test whose captured stdout is exactly
`"a\nb\nc\n"` and which exits cleanly does NOT get summary `"ok: a"`; the
split has 4 elements (`"a"`, `"b"`, `"c"`, `""`) and the element at index
`4 - 3 = 1` is `"b"`. -/
theorem summary_abc_counterexample :
    (runTest "t" "o" sampleEnvOk).1.summary ≠ "ok: a" := by decide

/-- C4 (amended): stdout exactly `"a\nb\nc\n"` yields summary body `"b"`
(the trailing split has four elements and the 3rd-from-last is `"b"`);
stdout splitting into fewer than 3 elements yields an empty body; success
prefixes the body with `"ok: "` and failure with `"error: "`. -/
theorem summary_abc_amended :
    (runTest "t" "o" sampleEnvOk).1.summary = "ok: b" ∧
    (runTest "t" "o"
      { sampleEnvOk with procErr := some "exit status 1" }).1.summary = "error: b" ∧
    (runTest "t" "o" { sampleEnvOk with stdout := "x\ny" }).1.summary = "ok: " ∧
    (runTest "t" "o"
      { sampleEnvOk with stdout := "", procErr := some "exit status 1" }).1.summary =
      "error: " := by
  refine ⟨by decide, by decide, by decide, by decide⟩

/-- C6 (confirmed): when the log destination cannot be created, `runTest`
returns a Result with the fixed summary `"create error"` and a non-nil
`err` (a Failed outcome carrying the create error), without writing a log
or spawning the process; and such per-test failures are non-fatal — for
any world (in particular one whose submissions all hit create errors) a
run with valid configuration still terminates normally. -/
theorem create_error_is_contained (name outdir : String) (env : TestEnv)
    (e : String) (hc : env.createErr = some e) :
    (runTest name outdir env).1.summary = "create error" ∧
    (runTest name outdir env).1.err = some e ∧
    (runTest name outdir env).2.spawned = false ∧
    (runTest name outdir env).2.log = none ∧
    (∀ (jobs : Nat) (patterns : List String) (w : World) (entries : List String),
      outdir ≠ "" → patterns ≠ [] →
      expandGlobs w.globFn patterns = Except.ok entries →
      w.mkdirErr = none → w.summaryWriteErr = none →
      mainModel jobs outdir patterns w =
        MainOutcome.success (runOutputOf outdir w entries)) := by
  refine ⟨?_, ?_, ?_, ?_, ?_⟩
  · unfold runTest; rw [hc]
  · unfold runTest; rw [hc]
  · unfold runTest; rw [hc]
  · unfold runTest; rw [hc]
  · intro jobs patterns w entries h1 h2 hg hm hs
    exact mainModel_success jobs outdir patterns w entries h1 h2 hg hm hs

/-- Witness for `create_error_is_contained`: a concrete create failure,
and a whole run (every submission hitting a create error) that still
terminates normally. -/
theorem create_error_is_contained_witness :
    (runTest "t1" "o" sampleEnvCreateFail).1.summary = "create error" ∧
    (runTest "t1" "o" sampleEnvCreateFail).2.spawned = false ∧
    mainModel 2 "o" ["p", "q"] createFailWorld =
      MainOutcome.success (runOutputOf "o" createFailWorld ["t1", "t2", "t1"]) :=
  ⟨(create_error_is_contained "t1" "o" sampleEnvCreateFail "permission denied" rfl).1,
   (create_error_is_contained "t1" "o" sampleEnvCreateFail "permission denied" rfl).2.2.1,
   (create_error_is_contained "t1" "o" sampleEnvCreateFail "permission denied" rfl).2.2.2.2
     2 ["p", "q"] createFailWorld ["t1", "t2", "t1"] (by decide) (by decide) rfl
     rfl rfl⟩

/-- C7 (counterexample): on the create-error path the returned Result
does NOT carry the input identifier; its `name` field is left at the zero
value `""`. -/
theorem create_error_loses_name_counterexample :
    (runTest "t1" "o" sampleEnvCreateFail).1.name ≠ "t1" := by decide

/-- C7 (amended): the Result carries the input identifier on the path
where the log file was created (whether the process then succeeded or
failed), but on the create-error path the Result's `name` is the empty
string, so the failures list and progress line show an empty name for a
create failure. -/
theorem result_name_on_paths (name outdir : String) (env : TestEnv) :
    (env.createErr = none → (runTest name outdir env).1.name = name) ∧
    (∀ e, env.createErr = some e → (runTest name outdir env).1.name = "") := by
  constructor
  · intro h; unfold runTest; rw [h]
  · intro e h; unfold runTest; rw [h]

/-- Witness for `result_name_on_paths` on both paths. -/
theorem result_name_on_paths_witness :
    (runTest "t1" "o" sampleEnvOk).1.name = "t1" ∧
    (runTest "t1" "o" sampleEnvCreateFail).1.name = "" :=
  ⟨(result_name_on_paths "t1" "o" sampleEnvOk).1 rfl,
   (result_name_on_paths "t1" "o" sampleEnvCreateFail).2 "permission denied" rfl⟩

/-- C10 (confirmed): the two file variants' Executors are equivalent: on
the same identifier and environment both return the same Result (and the
same spawn behavior), and when the log was created the two log files
differ only in the exit-status header text that the first variant
prepends; both contain the full stdout and stderr sections, in that
order, delimited by section markers. -/
theorem variants_equivalent (name outdir : String) (env : TestEnv) :
    (runTestB name outdir env).1 = (runTest name outdir env).1 ∧
    (runTestB name outdir env).2.spawned = (runTest name outdir env).2.spawned ∧
    (env.createErr = none →
      (runTest name outdir env).2.log =
        some (logPath outdir name,
          "*** EXIT: " ++ errText env.procErr ++ " ***" ++
            logContentB env.stdout env.stderr) ∧
      (runTestB name outdir env).2.log =
        some (logPath outdir name, logContentB env.stdout env.stderr) ∧
      logContentB env.stdout env.stderr =
        "\n\n" ++ "*** STDOUT: ***\n\n" ++ env.stdout ++
          "\n\n*** STDERR: ***\n\n" ++ env.stderr) := by
  refine ⟨?_, ?_, ?_⟩
  · cases h : env.createErr <;> unfold runTest runTestB <;> rw [h]
  · cases h : env.createErr <;> unfold runTest runTestB <;> rw [h]
  · intro h
    unfold runTest runTestB
    rw [h]
    refine ⟨?_, rfl, ?_⟩
    · rw [← logContentA_eq_header_append]
    · unfold logContentB
      simp [String.ext_iff, String.data_append]

/-- Witness for `variants_equivalent` with the create-error hypothesis
discharged at a concrete environment. -/
theorem variants_equivalent_witness :
    (runTestB "t2" "o" sampleEnvFail).1 = (runTest "t2" "o" sampleEnvFail).1 ∧
    ((runTest "t2" "o" sampleEnvFail).2.log =
      some (logPath "o" "t2",
        "*** EXIT: " ++ errText sampleEnvFail.procErr ++ " ***" ++
          logContentB sampleEnvFail.stdout sampleEnvFail.stderr) ∧
     (runTestB "t2" "o" sampleEnvFail).2.log =
      some (logPath "o" "t2",
        logContentB sampleEnvFail.stdout sampleEnvFail.stderr) ∧
     logContentB sampleEnvFail.stdout sampleEnvFail.stderr =
      "\n\n" ++ "*** STDOUT: ***\n\n" ++ sampleEnvFail.stdout ++
        "\n\n*** STDERR: ***\n\n" ++ sampleEnvFail.stderr) :=
  ⟨(variants_equivalent "t2" "o" sampleEnvFail).1,
   (variants_equivalent "t2" "o" sampleEnvFail).2.2 rfl⟩

/-- Length of the dispatch list: one `runTest` call per submitted entry. -/
theorem runAll_length (outdir : String) (envOf : Nat → TestEnv) :
    ∀ (i : Nat) (l : List String), (runAll outdir envOf i l).length = l.length := by
  intro i l
  induction l generalizing i with
  | nil => rfl
  | cons nm rest ih => simp [runAll, ih]

/-- When every log creation succeeds, the i-th collected Result names the
i-th submitted entry. -/
theorem runAll_names (outdir : String) (envOf : Nat → TestEnv)
    (h : ∀ j, (envOf j).createErr = none) :
    ∀ (i : Nat) (l : List String),
      (runAll outdir envOf i l).map (fun r => r.1.name) = l := by
  intro i l
  induction l generalizing i with
  | nil => rfl
  | cons nm rest ih =>
    simp only [runAll, List.map_cons]
    rw [ih]
    have : (runTest nm outdir (envOf i)).1.name = nm := by
      unfold runTest; rw [h i]
    rw [this]

/-- When every log creation succeeds, the log files written are exactly
`<outdir>/<entry>.log`, one per submitted entry, in submission order. -/
theorem runAll_logPaths (outdir : String) (envOf : Nat → TestEnv)
    (h : ∀ j, (envOf j).createErr = none) :
    ∀ (i : Nat) (l : List String),
      ((runAll outdir envOf i l).filterMap (fun r => r.2.log)).map Prod.fst =
        l.map (logPath outdir) := by
  intro i l
  induction l generalizing i with
  | nil => rfl
  | cons nm rest ih =>
    have hlog : (runTest nm outdir (envOf i)).2.log =
        some (logPath outdir nm,
          logContentA (envOf i).procErr (envOf i).stdout (envOf i).stderr) := by
      unfold runTest; rw [h i]
    simp only [runAll, List.filterMap_cons, hlog, List.map_cons]
    rw [ih]

/-- Every reachable scheduler state satisfies the invariant `SchedInv`. -/
theorem sched_inv (jobs : Nat) (outdir : String) (entries : List String)
    (envOf : Nat → TestEnv) (s : SchedState)
    (h : Reachable jobs outdir entries envOf s) :
    SchedInv jobs entries.length s := by
  induction h with
  | refl =>
    have h1 : List.countP holdsSlot (List.replicate entries.length UState.pending) = 0 := by
      rw [List.countP_eq_zero]
      intro u hu
      rw [List.eq_of_mem_replicate hu]
      simp [holdsSlot]
    have h2 : List.countP hasSent (List.replicate entries.length UState.pending) = 0 := by
      rw [List.countP_eq_zero]
      intro u hu
      rw [List.eq_of_mem_replicate hu]
      simp [hasSent]
    refine ⟨by simp [initState], ?_, ?_⟩
    · simp [initState, slotCount, h1]
    · simp [initState, h2]
  | tail hab hbc ih =>
    obtain ⟨hlen, hslot, hsent⟩ := ih
    cases hbc with
    | acquire l₁ l₂ sent hcnt =>
      refine ⟨?_, ?_, ?_⟩ <;>
        simp [SchedInv, slotCount, List.countP_append, List.countP_cons,
          holdsSlot, hasSent] at hlen hslot hsent hcnt ⊢ <;> omega
    | send l₁ l₂ sent hch =>
      refine ⟨?_, ?_, ?_⟩ <;>
        simp [SchedInv, slotCount, List.countP_append, List.countP_cons,
          holdsSlot, hasSent] at hlen hslot hsent hch ⊢ <;> omega
    | release l₁ l₂ sent =>
      refine ⟨?_, ?_, ?_⟩ <;>
        simp [SchedInv, slotCount, List.countP_append, List.countP_cons,
          holdsSlot, hasSent] at hlen hslot hsent ⊢ <;> omega

/-- C3 (confirmed): in every reachable state of a run, at most `jobs`
test executions hold a worker-budget slot simultaneously; and whenever
any goroutine has not yet released (and `jobs ≥ 1`), some step is still
enabled — acquire, send, or release — so a full budget never deadlocks
queued tests.  The statement is quantified over every `envOf`, hence in
particular over environments whose log-file creation fails inside the
Executor: the `send`/`release` steps carry no condition on the
environment because `runTest` returns on every path. -/
theorem worker_budget_bounded_and_live (jobs : Nat) (outdir : String)
    (entries : List String) (envOf : Nat → TestEnv) (s : SchedState)
    (h : Reachable jobs outdir entries envOf s) :
    slotCount s.units ≤ jobs ∧
    (1 ≤ jobs → (∃ u ∈ s.units, u ≠ UState.released) →
      ∃ s', SchedStep jobs outdir entries envOf s s') := by
  obtain ⟨hlen, hslot, hsent⟩ := sched_inv jobs outdir entries envOf s h
  refine ⟨hslot, ?_⟩
  rintro hj ⟨u, hu, hne⟩
  obtain ⟨units, sent⟩ := s
  dsimp only at hlen hslot hsent hu
  by_cases hd : UState.delivered ∈ units
  · obtain ⟨l₁, l₂, rfl⟩ := List.append_of_mem hd
    exact ⟨_, SchedStep.release l₁ l₂ sent⟩
  by_cases hr : UState.running ∈ units
  · obtain ⟨l₁, l₂, rfl⟩ := List.append_of_mem hr
    refine ⟨_, SchedStep.send l₁ l₂ sent ?_⟩
    have c1 : l₁.countP hasSent ≤ l₁.length := List.countP_le_length _
    have c2 : l₂.countP hasSent ≤ l₂.length := List.countP_le_length _
    simp [List.countP_append, List.countP_cons, hasSent] at hsent
    simp at hlen
    omega
  by_cases hp : UState.pending ∈ units
  · obtain ⟨l₁, l₂, rfl⟩ := List.append_of_mem hp
    refine ⟨_, SchedStep.acquire l₁ l₂ sent ?_⟩
    have hzero : slotCount (l₁ ++ UState.pending :: l₂) = 0 := by
      rw [slotCount, List.countP_eq_zero]
      intro u hu
      cases u with
      | pending => simp [holdsSlot]
      | running => exact absurd hu hr
      | delivered => exact absurd hu hd
      | released => simp [holdsSlot]
    omega
  · exfalso
    apply hne
    cases u with
    | pending => exact absurd hu hp
    | running => exact absurd hu hr
    | delivered => exact absurd hu hd
    | released => rfl

/-- Witness for `worker_budget_bounded_and_live` at the initial state of
a one-entry run with `jobs = 1`. -/
theorem worker_budget_bounded_and_live_witness :
    slotCount (initState 1).units ≤ 1 ∧
    (1 ≤ 1 → (∃ u ∈ (initState 1).units, u ≠ UState.released) →
      ∃ s', SchedStep 1 "o" ["t1"] (fun _ => sampleEnvOk) (initState 1) s') :=
  worker_budget_bounded_and_live 1 "o" ["t1"] (fun _ => sampleEnvOk)
    (initState 1) Relation.ReflTransGen.refl

/-- Shifting the starting submission index of the dispatch loop is the
same as shifting the environment function. -/
theorem runAll_shift (outdir : String) (envOf : Nat → TestEnv) :
    ∀ (l : List String) (i : Nat),
      runAll outdir envOf (i + 1) l = runAll outdir (fun k => envOf (k + 1)) i l := by
  intro l
  induction l with
  | nil => intro i; rfl
  | cons nm rest ih =>
    intro i
    simp only [runAll]
    rw [ih (i + 1)]

/-- The number of log files created equals the number of submissions
whose `os.Create` succeeded: a create failure produces a Result but no
log file. -/
theorem runAll_logs_length (outdir : String) :
    ∀ (l : List String) (envOf : Nat → TestEnv),
      ((runAll outdir envOf 0 l).filterMap (fun r => r.2.log)).length =
        (List.range l.length).countP (fun j => ((envOf j).createErr).isNone) := by
  intro l
  induction l with
  | nil => intro envOf; rfl
  | cons nm rest ih =>
    intro envOf
    have hsh : runAll outdir envOf (0 + 1) rest =
        runAll outdir (fun k => envOf (k + 1)) 0 rest :=
      runAll_shift outdir envOf rest 0
    rw [List.length_cons, List.range_succ_eq_map, List.countP_cons, List.countP_map]
    cases hc : (envOf 0).createErr with
    | none =>
      have hlog : (runTest nm outdir (envOf 0)).2.log =
          some (logPath outdir nm,
            logContentA (envOf 0).procErr (envOf 0).stdout (envOf 0).stderr) := by
        unfold runTest; rw [hc]
      have hcc : List.countP (fun j => ((envOf (j + 1)).createErr).isNone)
            (List.range rest.length) =
          List.countP ((fun j => ((envOf j).createErr).isNone) ∘ Nat.succ)
            (List.range rest.length) :=
        List.countP_congr (fun a _ => Iff.rfl)
      simp only [runAll, List.filterMap_cons, hlog, List.length_cons, hsh]
      rw [ih (fun k => envOf (k + 1)), hcc]
      simp
    | some e =>
      have hlog : (runTest nm outdir (envOf 0)).2.log = none := by
        unfold runTest; rw [hc]
      have hcc : List.countP (fun j => ((envOf (j + 1)).createErr).isNone)
            (List.range rest.length) =
          List.countP ((fun j => ((envOf j).createErr).isNone) ∘ Nat.succ)
            (List.range rest.length) :=
        List.countP_congr (fun a _ => Iff.rfl)
      simp only [runAll, List.filterMap_cons, hlog, hsh]
      rw [ih (fun k => envOf (k + 1)), hcc]
      simp

/-- C2 (counterexample): a run over two submitted identifiers where the
second submission's log cannot be created produces two Results but only
one log file, so "exactly N log files are created" fails on runs the
claim quantifies over. -/
theorem logs_fewer_than_results_counterexample :
    mainModel 2 "o" ["p"] mixedCreateWorld =
      MainOutcome.success (runOutputOf "o" mixedCreateWorld ["t1", "t2"]) ∧
    (runOutputOf "o" mixedCreateWorld ["t1", "t2"]).results.length = 2 ∧
    (runOutputOf "o" mixedCreateWorld ["t1", "t2"]).logs.length = 1 := by
  refine ⟨by decide, by decide, by decide⟩

/-- C2 (amended): a run over N submitted identifiers — duplicates from
multiple glob patterns submitted once per match — always produces exactly
N Results, regardless of the concurrency count (in the concurrent
scheduler model, for every `jobs` count, a completed run has delivered
exactly N Results on the channel); a log file is created exactly for the
submissions whose log creation succeeds, so when every log creation
succeeds there are exactly N log files in one-to-one correspondence with
the submitted identifiers (the i-th Result names the i-th entry and the
i-th log is `<outdir>/<entry_i>.log`). -/
theorem results_per_identifier_and_logs_per_created (jobs : Nat) (outdir : String)
    (patterns : List String) (w : World) (entries : List String)
    (h1 : outdir ≠ "") (h2 : patterns ≠ [])
    (hg : expandGlobs w.globFn patterns = Except.ok entries)
    (hm : w.mkdirErr = none) (hs : w.summaryWriteErr = none) :
    (∃ ro, mainModel jobs outdir patterns w = MainOutcome.success ro ∧
      ro.results.length = entries.length ∧
      ro.logs.length = (List.range entries.length).countP
        (fun j => ((w.envOf j).createErr).isNone) ∧
      ((∀ j, (w.envOf j).createErr = none) →
        ro.results.map (fun r => r.name) = entries ∧
        ro.logs.map Prod.fst = entries.map (logPath outdir))) ∧
    (∀ s, Reachable jobs outdir entries w.envOf s →
      (∀ u ∈ s.units, u = UState.released) →
      s.sent.length = entries.length) := by
  constructor
  · refine ⟨runOutputOf outdir w entries,
      mainModel_success jobs outdir patterns w entries h1 h2 hg hm hs, ?_, ?_, ?_⟩
    · show ((runAll outdir w.envOf 0 entries).map Prod.fst).length = entries.length
      rw [List.length_map]
      exact runAll_length outdir w.envOf 0 entries
    · exact runAll_logs_length outdir entries w.envOf
    · intro hcreate
      constructor
      · show ((runAll outdir w.envOf 0 entries).map Prod.fst).map (fun r => r.name) = entries
        rw [List.map_map]
        exact runAll_names outdir w.envOf hcreate 0 entries
      · exact runAll_logPaths outdir w.envOf hcreate 0 entries
  · intro s hreach hall
    obtain ⟨hlen, hslot, hsent⟩ := sched_inv jobs outdir entries w.envOf s hreach
    have hfull : s.units.countP hasSent = s.units.length := by
      rw [List.countP_eq_length]
      intro u hu
      rw [hall u hu]
      simp [hasSent]
    omega

/-- Witness for `results_per_identifier_and_logs_per_created`: globs
`p q` submit `t1` twice (once per matching pattern) and `t2` once; three
Results and three log creations result, since every creation succeeds. -/
theorem results_per_identifier_and_logs_per_created_witness :
    (∃ ro, mainModel 2 "o" ["p", "q"] sampleWorld = MainOutcome.success ro ∧
      ro.results.length = (["t1", "t2", "t1"] : List String).length ∧
      ro.logs.length = (List.range (["t1", "t2", "t1"] : List String).length).countP
        (fun j => ((sampleWorld.envOf j).createErr).isNone) ∧
      ((∀ j, (sampleWorld.envOf j).createErr = none) →
        ro.results.map (fun r => r.name) = ["t1", "t2", "t1"] ∧
        ro.logs.map Prod.fst = (["t1", "t2", "t1"] : List String).map (logPath "o"))) ∧
    (∀ s, Reachable 2 "o" ["t1", "t2", "t1"] sampleWorld.envOf s →
      (∀ u ∈ s.units, u = UState.released) →
      s.sent.length = (["t1", "t2", "t1"] : List String).length) :=
  results_per_identifier_and_logs_per_created 2 "o" ["p", "q"] sampleWorld
    ["t1", "t2", "t1"] (by decide) (by decide) rfl rfl rfl

/-- C9 (confirmed): after all Results are consumed, the failures list is
sorted lexicographically (a sorted permutation of the names of the
Results whose outcome failed) and the summary file, with the fixed name
`summary.txt` inside the output directory, contains the invocation
arguments, the completion timestamp, the elapsed duration, and the
sorted failed identifiers joined one per line. -/
theorem failures_sorted_and_summary_written (jobs : Nat) (outdir : String)
    (patterns : List String) (w : World) (entries : List String)
    (h1 : outdir ≠ "") (h2 : patterns ≠ [])
    (hg : expandGlobs w.globFn patterns = Except.ok entries)
    (hm : w.mkdirErr = none) (hs : w.summaryWriteErr = none) :
    ∃ ro, mainModel jobs outdir patterns w = MainOutcome.success ro ∧
      ro.failed = sortStrings
        ((ro.results.filter fun r => r.err.isSome).map fun r => r.name) ∧
      List.Sorted StrLeP ro.failed ∧
      ro.failed.Perm ((ro.results.filter fun r => r.err.isSome).map fun r => r.name) ∧
      ro.summaryFile = some (outdir ++ "/summary.txt",
        "# run " ++ formatArgs w.argv ++ "\n# on " ++ w.timestamp ++ ", elapsed " ++
          w.elapsed ++ ":\n" ++ String.intercalate "\n" ro.failed) := by
  refine ⟨runOutputOf outdir w entries,
    mainModel_success jobs outdir patterns w entries h1 h2 hg hm hs, rfl, ?_, ?_, rfl⟩
  · exact List.sorted_insertionSort StrLeP _
  · exact List.perm_insertionSort StrLeP _

/-- Witness for `failures_sorted_and_summary_written`: submissions
`[t1, t2, t1]` where the second and third fail, accumulating failures
`["t2", "t1"]`, sorted to `["t1", "t2"]` in the summary. -/
theorem failures_sorted_and_summary_written_witness :
    ∃ ro, mainModel 2 "o" ["p", "q"] sampleWorld = MainOutcome.success ro ∧
      ro.failed = sortStrings
        ((ro.results.filter fun r => r.err.isSome).map fun r => r.name) ∧
      List.Sorted StrLeP ro.failed ∧
      ro.failed.Perm ((ro.results.filter fun r => r.err.isSome).map fun r => r.name) ∧
      ro.summaryFile = some ("o" ++ "/summary.txt",
        "# run " ++ formatArgs sampleWorld.argv ++ "\n# on " ++ sampleWorld.timestamp ++
          ", elapsed " ++ sampleWorld.elapsed ++ ":\n" ++
          String.intercalate "\n" ro.failed) :=
  failures_sorted_and_summary_written 2 "o" ["p", "q"] sampleWorld ["t1", "t2", "t1"]
    (by decide) (by decide) rfl rfl rfl

/-- C8 (confirmed): the process terminates with exit status 0 exactly
when no fatal configuration or summary-write error occurred — missing
`--outdir`, missing glob argument, glob-expansion error, directory
creation error, summary-write error are the only non-zero exits.  The
equivalence is quantified over every `envOf`, so a completed run exits 0
however many individual tests failed. -/
theorem exit_zero_iff_no_fatal_error (jobs : Nat) (outdir : String)
    (patterns : List String) (w : World) :
    (∃ ro, mainModel jobs outdir patterns w = MainOutcome.success ro) ↔
      (outdir ≠ "" ∧ patterns ≠ [] ∧
        (∃ es, expandGlobs w.globFn patterns = Except.ok es) ∧
        w.mkdirErr = none ∧ w.summaryWriteErr = none) := by
  constructor
  · rintro ⟨ro, h⟩
    by_cases h1 : outdir = ""
    · simp [mainModel, h1] at h
    by_cases h2 : patterns = []
    · simp [mainModel, h1, h2] at h
    cases hg : expandGlobs w.globFn patterns with
    | error e => simp [mainModel, h1, h2, hg] at h
    | ok es =>
      cases hm : w.mkdirErr with
      | some e => simp [mainModel, h1, h2, hg, hm] at h
      | none =>
        cases hs : w.summaryWriteErr with
        | some e => simp [mainModel, h1, h2, hg, hm, hs] at h
        | none => exact ⟨h1, h2, ⟨es, rfl⟩, rfl, rfl⟩
  · rintro ⟨h1, h2, ⟨es, hg⟩, hm, hs⟩
    exact ⟨runOutputOf outdir w es,
      mainModel_success jobs outdir patterns w es h1 h2 hg hm hs⟩

/-- C5 (counterexample): with one glob pattern supplied that matches
nothing, the run is NOT aborted: it terminates normally (exit 0), with no
Results and no logs, and it does write the summary artifact. -/
theorem empty_match_counterexample :
    mainModel 2 "o" ["p"] emptyGlobWorld =
      MainOutcome.success
        { results := [], logs := [],
          summaryFile := some ("o/summary.txt", "# run [rungittest]\n# on T, elapsed E:\n"),
          failed := [] } := by decide

/-- C5 (amended): supplying zero glob *arguments* is a fatal usage error,
but an empty glob *match* (patterns supplied, zero identifiers expanded)
is not a configuration error: the run proceeds with N = 0, produces no
Results and no log files, writes the summary artifact, and exits 0. -/
theorem empty_match_not_fatal (jobs : Nat) (outdir : String)
    (patterns : List String) (w : World) (h1 : outdir ≠ "") :
    mainModel jobs outdir [] w = MainOutcome.fatal "usage: provide glob" ∧
    (patterns ≠ [] → expandGlobs w.globFn patterns = Except.ok [] →
      w.mkdirErr = none → w.summaryWriteErr = none →
      mainModel jobs outdir patterns w =
        MainOutcome.success
          { results := [], logs := [],
            summaryFile := some (outdir ++ "/summary.txt",
              summaryContent w.argv w.timestamp w.elapsed []),
            failed := [] }) := by
  constructor
  · unfold mainModel
    rw [if_neg h1, if_pos rfl]
  · intro h2 hg hm hs
    rw [mainModel_success jobs outdir patterns w [] h1 h2 hg hm hs]
    rfl

/-- Witness for `empty_match_not_fatal` on the concrete empty-match
world. -/
theorem empty_match_not_fatal_witness :
    mainModel 2 "o" [] emptyGlobWorld = MainOutcome.fatal "usage: provide glob" ∧
    mainModel 2 "o" ["p"] emptyGlobWorld =
      MainOutcome.success
        { results := [], logs := [],
          summaryFile := some ("o" ++ "/summary.txt",
            summaryContent emptyGlobWorld.argv emptyGlobWorld.timestamp
              emptyGlobWorld.elapsed []),
          failed := [] } :=
  ⟨(empty_match_not_fatal 2 "o" ["p"] emptyGlobWorld (by decide)).1,
   (empty_match_not_fatal 2 "o" ["p"] emptyGlobWorld (by decide)).2
     (by decide) rfl rfl rfl⟩
